import Mathlib

/-!
Shallow embedding of the report-submission and map-refresh workflow of the
Kathmandu Shame Map repository (SvelteKit + Leaflet + Supabase), covering:

* `ReportForm.svelte` — `getCurrentLocation`, `handleSubmit` and the form state;
* `+page.svelte` — `handleReportSubmit` (the page controller pipeline);
* `MapDisplay.svelte` — `fetchReports`, `updateMarkers`, `refreshData`.

JavaScript numbers are modelled by `JsNum` (a rational together with NaN and
the two infinities), which is enough to reproduce every comparison and
`isNaN` check the code performs.  Asynchronous backend calls are modelled by
passing their outcomes as explicit parameters, and the externally visible
effects of a run (storage upload, database insert, scheduled timers, warnings)
are returned as an explicit action trace.
-/

/-- A JavaScript number: NaN, plus or minus infinity, or a finite value
(modelled as a rational, which is faithful for every comparison performed by
this code). -/
inductive JsNum where
  | nan
  | posInf
  | negInf
  | fin (q : ℚ)
deriving DecidableEq, Repr

/-- JavaScript `isNaN`. -/
def JsNum.isNaN : JsNum → Bool
  | .nan => true
  | _ => false

/-- JavaScript `<` on numbers: any comparison involving NaN is false. -/
def JsNum.jsLt : JsNum → JsNum → Bool
  | .nan, _ => false
  | _, .nan => false
  | .negInf, .negInf => false
  | .negInf, _ => true
  | _, .negInf => false
  | .posInf, _ => false
  | _, .posInf => true
  | .fin a, .fin b => decide (a < b)

/-- JavaScript `>` on numbers. -/
def JsNum.jsGt (a b : JsNum) : Bool := JsNum.jsLt b a

/-- A `File` object as far as this code observes it: its name and media type. -/
structure ImageFile where
  name : String
  type : String
deriving DecidableEq, Repr

/-- The `ReportData` payload emitted by `ReportForm.svelte`.  The TypeScript
declaration types the coordinates as `number`, but `handleReportSubmit` in
`+page.svelte` re-checks them for null at runtime, so the embedding keeps the
option to make that branch expressible. -/
structure ReportData where
  pollutionType : String
  description : String
  latitude : Option JsNum
  longitude : Option JsNum
  imageFile : Option ImageFile
deriving DecidableEq, Repr

/-- The mutable state of `ReportForm.svelte` that the embedded operations
read or write. -/
structure FormState where
  pollutionType : String
  description : String
  latitude : Option JsNum
  longitude : Option JsNum
  imageFile : Option ImageFile
  isSubmitting : Bool
  locationStatus : String
  formError : Option String
deriving DecidableEq, Repr

/-- The initial form state: `$state` initializers of `ReportForm.svelte`. -/
def initialFormState : FormState :=
  { pollutionType := "Trash Dump"
    description := ""
    latitude := none
    longitude := none
    imageFile := none
    isSubmitting := false
    locationStatus := ""
    formError := none }

/-- Drops leading whitespace characters from a character list. -/
def dropLeadingWhitespace : List Char → List Char
  | [] => []
  | c :: cs => if c.isWhitespace then dropLeadingWhitespace cs else c :: cs

/-- JavaScript `String.prototype.trim`: removes whitespace from both ends.
Defined by structural recursion over the character list so that concrete
instances evaluate inside the kernel. -/
def jsTrim (s : String) : String :=
  String.mk
    (List.reverse (dropLeadingWhitespace (List.reverse (dropLeadingWhitespace s.data))))

/-- The coordinate-validity test of `handleSubmit`, written exactly in the
order of the source disjunction: null checks, `isNaN` checks, then the four
range comparisons. -/
def coordInvalid (lat lon : Option JsNum) : Bool :=
  match lat, lon with
  | none, _ => true
  | some _, none => true
  | some a, some b =>
      a.isNaN || b.isNaN ||
      a.jsLt (.fin (-90)) || a.jsGt (.fin 90) ||
      b.jsLt (.fin (-180)) || b.jsGt (.fin 180)

/-- `handleSubmit` from `ReportForm.svelte`.  The `onSubmit` callback is
modelled by its outcome `r` (`.ok` when the promise resolves, `.error msg`
when it rejects with an error carrying `msg`).  Returns the final form state
together with the data `onSubmit` was invoked with (`none` when validation
rejected the submission and the callback was never invoked). -/
def handleSubmit (s : FormState) (r : Except String Unit) :
    FormState × Option ReportData :=
  let s0 := { s with formError := none }
  if s0.pollutionType = "" || jsTrim s0.description = "" then
    ({ s0 with formError := some "All fields marked with * are required." }, none)
  else if coordInvalid s0.latitude s0.longitude then
    ({ s0 with formError := some "Please provide a valid location." }, none)
  else
    let s1 := { s0 with isSubmitting := true, locationStatus := "" }
    let data : ReportData :=
      { pollutionType := s1.pollutionType
        description := jsTrim s1.description
        latitude := s1.latitude
        longitude := s1.longitude
        imageFile := s1.imageFile }
    match r with
    | .ok _ => ({ s1 with isSubmitting := false }, some data)
    | .error msg =>
        ({ s1 with
            formError := some ("Failed to submit: " ++ msg)
            isSubmitting := false }, some data)

/-- The options object passed to `navigator.geolocation.getCurrentPosition`. -/
structure GeoOptions where
  enableHighAccuracy : Bool
  timeout : Nat
  maximumAge : Nat
deriving DecidableEq, Repr

/-- The shape of the geolocation request `getCurrentLocation` makes:
`getCurrentPosition` is a single-shot request (as opposed to `watchPosition`),
with the literal options object of the source. -/
structure GeoRequest where
  singleShot : Bool
  options : GeoOptions
deriving DecidableEq, Repr

/-- The request issued by `getCurrentLocation`. -/
def geoRequest : GeoRequest :=
  { singleShot := true
    options := { enableHighAccuracy := true, timeout := 10000, maximumAge := 0 } }

/-- The classified kinds of geolocation failure distinguished by the `switch`
in `getCurrentLocation`. -/
inductive LocationErrorKind where
  | permissionDenied
  | positionUnavailable
  | timeout
  | unknown
deriving DecidableEq, Repr

/-- The `switch (error.code)` of `getCurrentLocation`: codes 1, 2, 3 are the
`GeolocationPositionError` constants `PERMISSION_DENIED`,
`POSITION_UNAVAILABLE`, `TIMEOUT`; anything else falls to `default`. -/
def classifyGeoCode (code : Nat) : LocationErrorKind :=
  if code = 1 then .permissionDenied
  else if code = 2 then .positionUnavailable
  else if code = 3 then .timeout
  else .unknown

/-- The status message written for each classified failure kind. -/
def geoErrorStatus (code : Nat) : String :=
  match classifyGeoCode code with
  | .permissionDenied => "Permission denied. Please enable location access."
  | .positionUnavailable => "Location unavailable."
  | .timeout => "Location request timed out."
  | .unknown => "Failed to get location."

/-- Abstraction of `latitude.toFixed(5)`: renders the coordinate scaled to
five decimal places.  No claim depends on the rendered digits. -/
def jsToFixed5 : JsNum → String
  | .nan => "NaN"
  | .posInf => "Infinity"
  | .negInf => "-Infinity"
  | .fin q => toString ⌊q * 100000⌋

/-- The possible outcomes of the browser geolocation request as observed by
`getCurrentLocation`: the unsupported early return, a resolved position, or a
rejected promise carrying a `GeolocationPositionError` with a numeric code. -/
inductive GeoOutcome where
  | unsupported
  | success (lat lon : JsNum)
  | failure (code : Nat)
deriving DecidableEq, Repr

/-- `getCurrentLocation` from `ReportForm.svelte`, as a transformer of the
form state given the outcome of the geolocation request. -/
def getCurrentLocation (s : FormState) (o : GeoOutcome) : FormState :=
  let s0 := { s with locationStatus := "Getting location...", formError := none }
  match o with
  | .unsupported =>
      { s0 with locationStatus := "Geolocation is not supported by your browser." }
  | .success lat lon =>
      { s0 with
          latitude := some lat
          longitude := some lon
          locationStatus :=
            "Location: " ++ jsToFixed5 lat ++ ", " ++ jsToFixed5 lon }
  | .failure code =>
      { s0 with
          locationStatus := geoErrorStatus code
          latitude := none
          longitude := none }

/-- Externally visible steps performed by `handleReportSubmit` in
`+page.svelte`: the storage upload (with the generated object path), the
public-URL lookup, the database insert (with the record it writes), the map
refresh call, the warning when the map component reference is missing, and
the `setTimeout` that clears the status message (with its delay in
milliseconds). -/
inductive SubmitAction where
  | uploadImage (path : String)
  | getPublicUrl
  | insertReport (latitude longitude : JsNum)
      (pollutionTypeField description : String) (imageUrl : Option String)
  | refreshMap
  | warnNoMapComponent
  | scheduleClear (ms : Nat)
deriving DecidableEq, Repr

/-- Whether an action is the storage upload or the database insert. -/
def SubmitAction.isUploadOrInsert : SubmitAction → Bool
  | .uploadImage _ => true
  | .insertReport _ _ _ _ _ => true
  | _ => false

/-- The page-level state `handleReportSubmit` leaves behind when the function
returns (before any scheduled timer fires). -/
structure PageState where
  submissionMessage : Option String
  isProcessing : Bool
deriving DecidableEq, Repr

/-- Outcome of `supabase.storage.from('pollution-images').upload(...)`
followed by `getPublicUrl`: either the upload errored with a message, or it
succeeded and the public-URL lookup yielded `publicUrl` (`none` when
`urlData.publicUrl` was absent). -/
inductive UploadOutcome where
  | failure (msg : String)
  | success (publicUrl : Option String)
deriving DecidableEq, Repr

/-- Outcome of `supabase.from('pollution_reports').insert(...)`. -/
inductive InsertOutcome where
  | failure (msg : String)
  | success
deriving DecidableEq, Repr

/-- The object path generated for an upload:
`public/<Date.now()>_<random suffix>.<extension of the file name>`. -/
def filePathFor (now : Nat) (rand : String) (fileName : String) : String :=
  "public/" ++ toString now ++ "_" ++ rand ++ "." ++
    ((fileName.splitOn ".").getLastD "")

/-- `handleReportSubmit` from `+page.svelte`.  `supabaseReady` is whether the
`supabase` client is non-null, `mapReady` whether `mapDisplayComponent` is
non-null; `now` and `rand` stand for `Date.now()` and the random suffix; `up`
and `ins` are the backend outcomes (consulted only if the corresponding call
is reached).  Returns the final page state and the trace of externally
visible actions, in order.  The early return when the client is missing
happens before the `try`, so that path never reaches the `finally` that
schedules the message-clearing timer. -/
def handleReportSubmit (supabaseReady mapReady : Bool) (d : ReportData)
    (now : Nat) (rand : String) (up : UploadOutcome) (ins : InsertOutcome) :
    PageState × List SubmitAction :=
  if !supabaseReady then
    ({ submissionMessage := some "Error: Backend connection not ready. Please refresh"
       isProcessing := false }, [])
  else
    let refreshActs : List SubmitAction :=
      if mapReady then [.refreshMap] else [.warnNoMapComponent]
    match d.imageFile with
    | none =>
        -- The whole upload-and-insert block is guarded by `if (reportDetails.imageFile)`.
        ({ submissionMessage := some "Processing report..."
           isProcessing := false }, refreshActs ++ [.scheduleClear 7000])
    | some file =>
        let path := filePathFor now rand file.name
        match up with
        | .failure m =>
            ({ submissionMessage := some ("Error: " ++ ("Image upload failed: " ++ m))
               isProcessing := false },
             [.uploadImage path, .scheduleClear 7000])
        | .success url =>
            match d.latitude, d.longitude with
            | some la, some lo =>
                match ins with
                | .failure m =>
                    ({ submissionMessage :=
                         some ("Error: " ++ ("Failed to save report: " ++ m))
                       isProcessing := false },
                     [.uploadImage path, .getPublicUrl,
                      .insertReport la lo d.pollutionType d.description url,
                      .scheduleClear 7000])
                | .success =>
                    ({ submissionMessage := some "Report submitted successfully!"
                       isProcessing := false },
                     [.uploadImage path, .getPublicUrl,
                      .insertReport la lo d.pollutionType d.description url]
                       ++ refreshActs ++ [.scheduleClear 7000])
            | _, _ =>
                ({ submissionMessage :=
                     some ("Error: " ++ "Latitude or Longitude is missing")
                   isProcessing := false },
                 [.uploadImage path, .getPublicUrl, .scheduleClear 7000])

/-- A stored report row as fetched by `MapDisplay.svelte`.  The TypeScript
type declares the coordinates as `number`, but `updateMarkers` defensively
re-checks them for null, so the embedding keeps options; `pollution_type` is
optional because the popup template reads it with optional chaining. -/
structure PollutionReport where
  id : String
  created_at : String
  latitude : Option JsNum
  longitude : Option JsNum
  pollution_type : Option String
  description : String
  image_url : Option String
deriving DecidableEq, Repr

/-- A Leaflet marker as far as this workflow observes it: its position and
the popup HTML bound to it. -/
structure Marker where
  lat : JsNum
  lon : JsNum
  popup : String
deriving DecidableEq, Repr

/-- Abstraction of `new Date(created_at).toLocaleString()`; no claim depends
on the rendered form, so the raw timestamp string is used. -/
def localeString (createdAt : String) : String := createdAt

/-- `report.pollution_type?.replace(/_/g, ' ') || 'Report'`: optional chaining
yields the fallback when the field is absent, and `||` also takes the
fallback when the replaced string is empty. -/
def popupTypeText (pt : Option String) : String :=
  match pt with
  | none => "Report"
  | some p =>
      let r := p.replace "_" " "
      if r = "" then "Report" else r

/-- The popup HTML built for one report, following the source template with
its indentation whitespace condensed (no claim depends on the exact
whitespace). -/
def popupContent (r : PollutionReport) : String :=
  "<div class=\"ksm-popup space-y-1 max-w-xs\">" ++
  "<strong class=\"text-base capitalize\">" ++ popupTypeText r.pollution_type ++
  "</strong>" ++
  "<p class=\"text-sm text-gray-700\">" ++
  (if r.description = "" then "No description provided." else r.description) ++
  "</p>" ++
  (match r.image_url with
   | some u =>
       "<a href=\"" ++ u ++ "\" target=\"_blank\"><img src=\"" ++ u ++
       "\" alt=\"Pollution report image\"></a>"
   | none => "") ++
  "<p class=\"text-xs text-gray-500 pt-1\">Reported: " ++
  localeString r.created_at ++ "</p></div>"

/-- The skip test at the head of the `reports.forEach` loop of
`updateMarkers`: `latitude == null || longitude == null || isNaN(latitude) ||
isNaN(longitude)`. -/
def hasValidCoords (r : PollutionReport) : Bool :=
  match r.latitude, r.longitude with
  | some a, some b => !a.isNaN && !b.isNaN
  | _, _ => false

/-- The marker created for one report, or `none` when the report is skipped
by the coordinate check. -/
def markerOf (r : PollutionReport) : Option Marker :=
  match r.latitude, r.longitude with
  | some a, some b =>
      if a.isNaN || b.isNaN then none
      else some { lat := a, lon := b, popup := popupContent r }
  | _, _ => none

/-- The marker list produced by the `forEach` loop of `updateMarkers` after
`markersLayer.clearLayers()`: the layer ends up holding exactly the markers
of the valid reports, in order. -/
def buildMarkers (rs : List PollutionReport) : List Marker :=
  rs.filterMap markerOf

/-- The component state of `MapDisplay.svelte` the embedded operations read
or write.  `mapReady`, `layerReady` and `leafletReady` are whether
`mapInstance`, `markersLayer` and the dynamically imported `L` are non-null;
`markers` is the content of the marker layer group. -/
structure MapState where
  supabaseReady : Bool
  mapReady : Bool
  layerReady : Bool
  leafletReady : Bool
  reports : List PollutionReport
  markers : List Marker
  isLoading : Bool
  mapError : Option String
deriving DecidableEq, Repr

/-- Externally visible steps of the map component: the `listReports` query
(`select ... order ... limit(500)`), and the logged warnings of the guard
clauses. -/
inductive MapAction where
  | queryReports
  | warnRefreshNotReady
deriving DecidableEq, Repr

/-- `updateMarkers` from `MapDisplay.svelte`: the three guard clauses return
leaving the state unchanged (with a logged warning); otherwise the layer is
cleared and rebuilt from the current report list.  The trailing
`hasLayer` re-attachment does not change the marker set and is not modelled. -/
def updateMarkers (s : MapState) : MapState :=
  if s.mapReady && s.layerReady && s.leafletReady then
    { s with markers := buildMarkers s.reports }
  else s

/-- Outcome of the `listReports` query as observed by `fetchReports`. -/
inductive FetchResult where
  | ok (data : List PollutionReport)
  | err (msg : String)
deriving DecidableEq, Repr

/-- `fetchReports` from `MapDisplay.svelte`: clears `mapError`, guards on the
client, then on success stores the fetched rows and updates markers, and on
error stores the error message, clears the rows and updates markers (removing
everything from the layer). -/
def fetchReports (s : MapState) (res : FetchResult) : MapState × List MapAction :=
  let s0 := { s with mapError := none }
  if !s0.supabaseReady then
    ({ s0 with mapError := some "Backend connection error.", isLoading := false }, [])
  else
    match res with
    | .ok data =>
        (updateMarkers { s0 with reports := data }, [.queryReports])
    | .err m =>
        (updateMarkers
          { s0 with
              mapError := some ("Failed to load reports: " ++ m)
              reports := [] }, [.queryReports])

/-- `refreshData` from `MapDisplay.svelte`: a guarded no-op (with a warning)
when the map instance does not exist yet, otherwise a full re-fetch wrapped
in the loading flag. -/
def refreshData (s : MapState) (res : FetchResult) : MapState × List MapAction :=
  if !s.mapReady then
    (s, [.warnRefreshNotReady])
  else
    let s1 := { s with isLoading := true, mapError := none }
    let r := fetchReports s1 res
    ({ r.1 with isLoading := false }, r.2)

/-- C1: For every form submission whose data carries no attached image file
(`imageFile` is null), the submission pipeline performs no image upload and
no `insertReport` call, so no record is persisted to the backend; the upload
and insert steps run only when an image file is actually provided. -/
theorem no_image_skips_upload_and_insert (sb mp : Bool) (d : ReportData)
    (now : Nat) (rand : String) (up : UploadOutcome) (ins : InsertOutcome)
    (h : d.imageFile = none) :
    ((handleReportSubmit sb mp d now rand up ins).2.filter
        SubmitAction.isUploadOrInsert) = [] := by
  unfold handleReportSubmit
  cases sb
  · simp
  · cases mp <;> simp [h, SubmitAction.isUploadOrInsert]

/-- Witness for C1 at a concrete image-less submission. -/
theorem no_image_skips_upload_and_insert_witness :
    (ReportData.mk "Trash Dump" "x" (some (.fin 27)) (some (.fin 85)) none).imageFile
        = none ∧
    ((handleReportSubmit true true
        (ReportData.mk "Trash Dump" "x" (some (.fin 27)) (some (.fin 85)) none)
        0 "abc123" (.success none) .success).2.filter
        SubmitAction.isUploadOrInsert) = [] :=
  ⟨rfl, no_image_skips_upload_and_insert true true
    (ReportData.mk "Trash Dump" "x" (some (.fin 27)) (some (.fin 85)) none)
    0 "abc123" (.success none) .success rfl⟩

/-- C2: For every description string that is empty or consists only of
whitespace, `handleSubmit` rejects the submission with a validation error,
the `onSubmit` callback is never invoked, and no backend call occurs. -/
theorem blank_description_rejected (s : FormState) (r : Except String Unit)
    (h : jsTrim s.description = "") :
    (handleSubmit s r).2 = none ∧
    (handleSubmit s r).1.formError =
      some "All fields marked with * are required." := by
  unfold handleSubmit
  simp [h]

/-- Witness for C2 at a whitespace-only description. -/
theorem blank_description_rejected_witness :
    jsTrim ({ initialFormState with description := "   " } : FormState).description
      = "" ∧
    (handleSubmit { initialFormState with description := "   " }
        (Except.ok ())).2 = none :=
  ⟨by decide,
   (blank_description_rejected { initialFormState with description := "   " }
     (Except.ok ()) (by decide)).1⟩

/-- C8: Whenever `refreshData` is invoked before initialization has completed
(the map instance does not yet exist), it is a no-op that logs a warning and
returns without fetching, without modifying any state, and without raising a
failure. -/
theorem refresh_before_init_noop (s : MapState) (res : FetchResult)
    (h : s.mapReady = false) :
    refreshData s res = (s, [.warnRefreshNotReady]) := by
  unfold refreshData
  simp [h]

/-- Witness for C8 at a concrete not-yet-ready state. -/
theorem refresh_before_init_noop_witness :
    (MapState.mk true false false false [] [] true none).mapReady = false ∧
    refreshData (MapState.mk true false false false [] [] true none)
        (.ok []) =
      (MapState.mk true false false false [] [] true none,
       [.warnRefreshNotReady]) :=
  ⟨rfl, refresh_before_init_noop
    (MapState.mk true false false false [] [] true none) (.ok []) rfl⟩

/-- Helper: a report is skipped by the coordinate check exactly when
`hasValidCoords` is false. -/
theorem markerOf_eq_none_of_invalid (r : PollutionReport)
    (h : hasValidCoords r = false) : markerOf r = none := by
  unfold markerOf
  unfold hasValidCoords at h
  rcases hl : r.latitude with _ | a <;> rcases ho : r.longitude with _ | b <;>
    simp_all

/-- Helper: a valid report always yields its marker. -/
theorem markerOf_eq_some_of_valid (r : PollutionReport)
    (h : hasValidCoords r = true) :
    ∃ a b, r.latitude = some a ∧ r.longitude = some b ∧
      markerOf r = some { lat := a, lon := b, popup := popupContent r } := by
  unfold markerOf
  unfold hasValidCoords at h
  rcases hl : r.latitude with _ | a <;> rcases ho : r.longitude with _ | b <;>
    simp_all

/-- Helper: filtering out the invalid reports does not change the marker
list. -/
theorem buildMarkers_filter_valid (l : List PollutionReport) :
    buildMarkers (l.filter hasValidCoords) = buildMarkers l := by
  unfold buildMarkers
  induction l with
  | nil => rfl
  | cons r rs ih =>
      cases hv : hasValidCoords r with
      | true =>
          obtain ⟨a, b, -, -, hm⟩ := markerOf_eq_some_of_valid r hv
          simp [List.filter_cons, hv, hm, ih]
      | false =>
          simp [List.filter_cons, hv, ih,
            markerOf_eq_none_of_invalid r hv]

/-- Helper: over a list of valid reports, one marker is produced per
report. -/
theorem length_buildMarkers_of_valid (l : List PollutionReport)
    (h : ∀ r ∈ l, hasValidCoords r = true) :
    (buildMarkers l).length = l.length := by
  unfold buildMarkers
  induction l with
  | nil => rfl
  | cons r rs ih =>
      obtain ⟨a, b, -, -, hm⟩ :=
        markerOf_eq_some_of_valid r (h r (List.mem_cons_self r rs))
      simp [hm, ih fun x hx => h x (List.mem_cons_of_mem r hx)]

/-- C4: For every list of StoredReport records passed to marker rendering,
each record whose latitude or longitude is null or NaN is skipped (no marker
created) without raising an error, and the skipped records do not change the
markers produced for the remaining valid records — one marker per valid
record. -/
theorem invalid_coords_excluded_from_markers (reports : List PollutionReport) :
    buildMarkers reports = buildMarkers (reports.filter hasValidCoords) ∧
    (buildMarkers reports).length = (reports.filter hasValidCoords).length := by
  refine ⟨(buildMarkers_filter_valid reports).symm, ?_⟩
  rw [← buildMarkers_filter_valid reports]
  exact length_buildMarkers_of_valid _ fun r hr => (List.mem_filter.mp hr).2

/-- C10: Whenever the report fetch fails (`listReports` returns an error),
the component's stored report list is reset to empty and `updateMarkers` is
run on that empty list, so all previously rendered markers are removed from
the map rather than retained alongside the error message. -/
theorem fetch_error_clears_markers (s : MapState) (m : String)
    (hs : s.supabaseReady = true) (hm : s.mapReady = true)
    (hl : s.layerReady = true) (hf : s.leafletReady = true) :
    (fetchReports s (.err m)).1.reports = [] ∧
    (fetchReports s (.err m)).1.markers = [] ∧
    (fetchReports s (.err m)).1.mapError =
      some ("Failed to load reports: " ++ m) := by
  unfold fetchReports updateMarkers
  simp [hs, hm, hl, hf, buildMarkers]

/-- Witness for C10 at a concrete ready state holding one marker. -/
theorem fetch_error_clears_markers_witness :
    (MapState.mk true true true true [] [Marker.mk (.fin 27) (.fin 85) "p"]
        false none).supabaseReady = true ∧
    (fetchReports
        (MapState.mk true true true true [] [Marker.mk (.fin 27) (.fin 85) "p"]
          false none) (.err "boom")).1.markers = [] :=
  ⟨rfl,
   (fetch_error_clears_markers
     (MapState.mk true true true true [] [Marker.mk (.fin 27) (.fin 85) "p"]
       false none) "boom" rfl rfl rfl rfl).2.1⟩

/-- C7: Calling `refresh()` twice in succession with an unchanged backend
data set yields the same marker count and positions both times: the marker
layer is fully cleared and rebuilt on each refresh, so repeated refreshes
never accumulate duplicate markers. -/
theorem refresh_twice_same_markers (s : MapState) (d : List PollutionReport)
    (hm : s.mapReady = true) (hl : s.layerReady = true)
    (hf : s.leafletReady = true) (hs : s.supabaseReady = true) :
    (refreshData s (.ok d)).1.markers = buildMarkers d ∧
    (refreshData (refreshData s (.ok d)).1 (.ok d)).1.markers =
      (refreshData s (.ok d)).1.markers := by
  unfold refreshData fetchReports updateMarkers
  simp [hm, hl, hf, hs]

/-- Witness for C7 at a concrete ready state and a two-row data set (one
valid row, one with a NaN coordinate). -/
theorem refresh_twice_same_markers_witness :
    (MapState.mk true true true true [] [] false none).mapReady = true ∧
    (refreshData
        (refreshData (MapState.mk true true true true [] [] false none)
          (.ok [PollutionReport.mk "a" "t1" (some (.fin 27)) (some (.fin 85))
                  (some "Trash Dump") "x" none,
                PollutionReport.mk "b" "t2" (some .nan) (some (.fin 85))
                  none "" none])).1
        (.ok [PollutionReport.mk "a" "t1" (some (.fin 27)) (some (.fin 85))
                (some "Trash Dump") "x" none,
              PollutionReport.mk "b" "t2" (some .nan) (some (.fin 85))
                none "" none])).1.markers =
      (refreshData (MapState.mk true true true true [] [] false none)
        (.ok [PollutionReport.mk "a" "t1" (some (.fin 27)) (some (.fin 85))
                (some "Trash Dump") "x" none,
              PollutionReport.mk "b" "t2" (some .nan) (some (.fin 85))
                none "" none])).1.markers :=
  ⟨rfl,
   (refresh_twice_same_markers (MapState.mk true true true true [] [] false none)
     [PollutionReport.mk "a" "t1" (some (.fin 27)) (some (.fin 85))
        (some "Trash Dump") "x" none,
      PollutionReport.mk "b" "t2" (some .nan) (some (.fin 85)) none "" none]
     rfl rfl rfl rfl).2⟩

/-- A form with an out-of-range latitude and an (invalid) empty description. -/
def formBlankDescBadLat : FormState :=
  { initialFormState with
      latitude := some (.fin 200)
      longitude := some (.fin 85) }

/-- A form with a NaN latitude and a valid description. -/
def formNanLat : FormState :=
  { initialFormState with
      description := "x"
      latitude := some .nan
      longitude := some (.fin 85) }

/-- A fully valid filled-in form. -/
def formFilled : FormState :=
  { initialFormState with
      description := "overflowing bins"
      latitude := some (.fin 27)
      longitude := some (.fin 85) }

/-- A form already holding manually entered coordinates. -/
def formWithCoords : FormState :=
  { initialFormState with
      latitude := some (.fin 10)
      longitude := some (.fin 20) }

/-- Counterexample for C3: a form whose latitude (200) is out of range but
whose description is empty is an instance of the claim's premise, yet the
rejection carries the combined required-fields message, not the
invalid-location one, because the description check runs first. -/
theorem invalid_location_error_counterexample :
    coordInvalid formBlankDescBadLat.latitude formBlankDescBadLat.longitude
      = true ∧
    (handleSubmit formBlankDescBadLat (Except.ok ())).2 = none ∧
    (handleSubmit formBlankDescBadLat (Except.ok ())).1.formError ≠
      some "Please provide a valid location." := by
  refine ⟨by decide, by decide, by decide⟩

/-- C3 (amended): for every form state whose latitude or longitude is null,
NaN or out of range, `handleSubmit` rejects the submission before invoking
`onSubmit` (so no network call is made); the error is the invalid-location
message when the category/description validation passes, and the combined
required-fields message otherwise. -/
theorem invalid_location_rejected (s : FormState) (r : Except String Unit)
    (h : coordInvalid s.latitude s.longitude = true) :
    (handleSubmit s r).2 = none ∧
    (handleSubmit s r).1.formError =
      some (if s.pollutionType = "" || jsTrim s.description = ""
            then "All fields marked with * are required."
            else "Please provide a valid location.") := by
  unfold handleSubmit
  by_cases h1 : s.pollutionType = "" <;> by_cases h2 : jsTrim s.description = "" <;>
    simp [h1, h2, h]

/-- Witness for C3 (amended) at a NaN latitude with a non-empty
description. -/
theorem invalid_location_rejected_witness :
    coordInvalid formNanLat.latitude formNanLat.longitude = true ∧
    (handleSubmit formNanLat (Except.ok ())).2 = none :=
  ⟨by decide,
   (invalid_location_rejected formNanLat (Except.ok ()) (by decide)).1⟩

/-- Counterexample for C5: when the backend connection is missing, the
pipeline returns before the `try`/`finally`, so the error message is set but
no clearing timer is ever scheduled — the action trace is empty. -/
theorem clear_timer_counterexample :
    (handleReportSubmit false true
        (ReportData.mk "Trash Dump" "x" (some (.fin 27)) (some (.fin 85)) none)
        0 "abc123" (.success none) .success).1.submissionMessage =
      some "Error: Backend connection not ready. Please refresh" ∧
    (handleReportSubmit false true
        (ReportData.mk "Trash Dump" "x" (some (.fin 27)) (some (.fin 85)) none)
        0 "abc123" (.success none) .success).2 = [] :=
  ⟨rfl, rfl⟩

/-- C5 (amended): whenever the backend connection exists, every run of the
submission pipeline — success, upload failure, insert failure, or the
missing-coordinate throw — reaches the `finally` block and schedules the
7-second timer that clears the transient status message; when the connection
is missing, the early return leaves the error message with no timer. -/
theorem clear_timer_scheduled_when_backend_ready (mp : Bool) (d : ReportData)
    (now : Nat) (rand : String) (up : UploadOutcome) (ins : InsertOutcome) :
    SubmitAction.scheduleClear 7000 ∈
      (handleReportSubmit true mp d now rand up ins).2 := by
  unfold handleReportSubmit
  rcases d with ⟨pt, ds, la, lo, im⟩
  rcases im with _ | f
  · cases mp <;> simp
  · rcases up with m | url
    · simp
    · rcases la with _ | la' <;> rcases lo with _ | lo' <;>
        rcases ins with m | _ <;> cases mp <;> simp

/-- Counterexample for C6: a successful submit (the callback resolves) leaves
the form fields holding their values — the description and coordinates are
not reset to the initial empty state. -/
theorem reset_on_submit_counterexample :
    ((handleSubmit formFilled (Except.ok ())).2).isSome = true ∧
    (handleSubmit formFilled (Except.ok ())).1.description ≠ "" ∧
    (handleSubmit formFilled (Except.ok ())).1.latitude ≠ none := by
  refine ⟨by decide, by decide, by decide⟩

/-- C6 (amended): on every successful submit (`onSubmit` completes without
error), the form's category, description, coordinates and image-file fields
retain their values — they are not reset; only the submitting flag is
cleared, the location status is emptied and the form error stays null.  The
pending report is destroyed only on component teardown. -/
theorem successful_submit_preserves_fields (s : FormState)
    (hv : (s.pollutionType = "" || jsTrim s.description = "") = false)
    (hc : coordInvalid s.latitude s.longitude = false) :
    (handleSubmit s (Except.ok ())).2 =
      some { pollutionType := s.pollutionType
             description := jsTrim s.description
             latitude := s.latitude
             longitude := s.longitude
             imageFile := s.imageFile } ∧
    (handleSubmit s (Except.ok ())).1 =
      { s with formError := none, isSubmitting := false,
               locationStatus := "" } := by
  unfold handleSubmit
  simp only [Bool.or_eq_false_iff, decide_eq_false_iff_not] at hv
  simp [hv.1, hv.2, hc]

/-- Witness for C6 (amended) at a concrete filled-in form. -/
theorem successful_submit_preserves_fields_witness :
    coordInvalid formFilled.latitude formFilled.longitude = false ∧
    (handleSubmit formFilled (Except.ok ())).1 =
      { formFilled with formError := none, isSubmitting := false,
                        locationStatus := "" } :=
  ⟨by decide,
   (successful_submit_preserves_fields formFilled (by decide) (by decide)).2⟩

/-- Counterexample for C9: in the unsupported branch the coordinates are left
untouched rather than set to null — starting from a form holding (10, 20),
the failure leaves them at (10, 20). -/
theorem geolocation_null_counterexample :
    (getCurrentLocation formWithCoords .unsupported).locationStatus =
      "Geolocation is not supported by your browser." ∧
    (getCurrentLocation formWithCoords .unsupported).latitude ≠ none ∧
    (getCurrentLocation formWithCoords .unsupported).longitude ≠ none := by
  refine ⟨rfl, by decide, by decide⟩

/-- C9 (amended): the location request is single-shot and high-accuracy with
a 10-second timeout and no cached positions; every rejected request is
classified into one of the four failure kinds by its status message and sets
both coordinates to null (never zero or a default); the unsupported case gets
its own status message but leaves the coordinates unchanged. -/
theorem geolocation_contract (s : FormState) (code : Nat) :
    geoRequest.singleShot = true ∧
    geoRequest.options =
      { enableHighAccuracy := true, timeout := 10000, maximumAge := 0 } ∧
    (getCurrentLocation s (.failure code)).latitude = none ∧
    (getCurrentLocation s (.failure code)).longitude = none ∧
    (getCurrentLocation s (.failure code)).locationStatus ∈
      ["Permission denied. Please enable location access.",
       "Location unavailable.",
       "Location request timed out.",
       "Failed to get location."] ∧
    (getCurrentLocation s .unsupported).locationStatus =
      "Geolocation is not supported by your browser." := by
  refine ⟨rfl, rfl, rfl, rfl, ?_, rfl⟩
  show geoErrorStatus code ∈ _
  unfold geoErrorStatus classifyGeoCode
  by_cases h1 : code = 1 <;> by_cases h2 : code = 2 <;> by_cases h3 : code = 3 <;>
    simp [h1, h2, h3]
